import Mathlib

/-!
Shallow embedding of the Ghibli static-site generator (`generate-static.js`)
and its front-end soot-particle script, with theorems checking the
specification's claims against the embedded code.

Modelling conventions:
* JS strings are Lean `String`s, manipulated through their `.data` character
  lists (JS string indices are UTF-16 units; all comparisons in this code are
  against ASCII literals, where the two coincide).
* A JS value that may be `null`/`undefined`/absent is an `Option`.
* JS truthiness of a string is "nonempty"; of an object, "present".
* `Array.prototype.sort` (ES2019: stable) is embedded as a stable insertion
  sort with the source's comparator; exact whenever the comparator is
  consistent.
* JS doubles are embedded as exact rationals / integers (exact below 2^53).
-/

/-! ### Character-list utilities embedding the JS string operations -/

/-- Splits a character list at every occurrence of `sep`, keeping empty pieces,
exactly like JS `String.prototype.split` with a one-character separator.
The result is always nonempty. -/
def splitChars (sep : Char) : List Char → List (List Char)
  | [] => [[]]
  | c :: cs =>
    if c = sep then [] :: splitChars sep cs
    else
      match splitChars sep cs with
      | [] => [[c]]
      | p :: ps => (c :: p) :: ps

/-- Does `l` start with `pre`? (helper for the substring test). -/
def startsWithL : List Char → List Char → Bool
  | [], _ => true
  | _ :: _, [] => false
  | a :: as, b :: bs => a == b && startsWithL as bs

/-- Does `l` contain `sub` as a contiguous run? (JS `String.prototype.includes`). -/
def hasSubL (sub : List Char) : List Char → Bool
  | [] => sub.isEmpty
  | b :: bs => startsWithL sub (b :: bs) || hasSubL sub bs

/-- JS `s.includes(search)`. -/
def jsIncludes (s search : String) : Bool := hasSubL search.data s.data

/-- `sub` occurs contiguously inside `s` (the Prop counterpart of `jsIncludes`). -/
def SubstrP (sub s : String) : Prop := ∃ p q, s.data = p ++ sub.data ++ q

/-- JS `array.join('')` on a list of strings. -/
def jsJoin : List String → String
  | [] => ""
  | s :: rest => s ++ jsJoin rest

/-- JS `array.join(sep)`. -/
def jsJoinSep (sep : String) : List String → String
  | [] => ""
  | s :: rest => rest.foldl (fun acc x => acc ++ sep ++ x) s

/-- JS `s.split(sep)` for a one-character separator, as a list of strings. -/
def jsSplit (sep : Char) (s : String) : List String :=
  (splitChars sep s.data).map String.mk

/-- JS `String.prototype.toLowerCase`, embedded as the ASCII lowering map
(agrees with JS on the ASCII comparisons performed by this code). -/
def jsToLower (s : String) : String := String.mk (s.data.map Char.toLower)

/-- JS `String.prototype.toUpperCase`, embedded as the ASCII raising map. -/
def jsToUpper (s : String) : String := String.mk (s.data.map Char.toUpper)

/-! #### Lemmas about the string utilities -/

theorem startsWithL_iff (sub l : List Char) :
    startsWithL sub l = true ↔ ∃ t, l = sub ++ t := by
  induction sub generalizing l with
  | nil => simp [startsWithL]
  | cons a as ih =>
    cases l with
    | nil =>
      simp [startsWithL]
    | cons b bs =>
      simp only [startsWithL, Bool.and_eq_true, beq_iff_eq, ih bs]
      constructor
      · rintro ⟨rfl, t, rfl⟩
        exact ⟨t, rfl⟩
      · rintro ⟨t, ht⟩
        cases ht
        exact ⟨rfl, t, rfl⟩

theorem hasSubL_iff (sub l : List Char) :
    hasSubL sub l = true ↔ ∃ p q, l = p ++ sub ++ q := by
  induction l with
  | nil =>
    simp only [hasSubL, List.isEmpty_iff]
    constructor
    · rintro rfl
      exact ⟨[], [], rfl⟩
    · rintro ⟨p, q, h⟩
      obtain ⟨h1, _⟩ := List.append_eq_nil.mp h.symm
      obtain ⟨_, h2⟩ := List.append_eq_nil.mp h1
      simp [h2]
  | cons b bs ih =>
    simp only [hasSubL, Bool.or_eq_true, startsWithL_iff, ih]
    constructor
    · rintro (⟨t, ht⟩ | ⟨p, q, rfl⟩)
      · exact ⟨[], t, by simpa using ht⟩
      · exact ⟨b :: p, q, rfl⟩
    · rintro ⟨p, q, hl⟩
      cases p with
      | nil =>
        left
        exact ⟨q, by simpa using hl⟩
      | cons x xs =>
        right
        rw [List.cons_append, List.cons_append] at hl
        cases hl
        exact ⟨xs, q, rfl⟩

theorem jsIncludes_iff (s search : String) :
    jsIncludes s search = true ↔ SubstrP search s := by
  rw [jsIncludes, hasSubL_iff]
  rfl

theorem substrP_trans {a b c : String} (h1 : SubstrP a b) (h2 : SubstrP b c) :
    SubstrP a c := by
  obtain ⟨p1, q1, hb⟩ := h1
  obtain ⟨p2, q2, hc⟩ := h2
  exact ⟨p2 ++ p1, q1 ++ q2, by simp [hc, hb]⟩

theorem substrP_of_append (a x y : String) : SubstrP a (x ++ a ++ y) :=
  ⟨x.data, y.data, by simp [String.data_append]⟩

theorem substrP_append_left {a s : String} (x : String) (h : SubstrP a s) :
    SubstrP a (x ++ s) := by
  obtain ⟨p, q, hs⟩ := h
  exact ⟨x.data ++ p, q, by simp [String.data_append, hs]⟩

theorem substrP_append_right {a s : String} (y : String) (h : SubstrP a s) :
    SubstrP a (s ++ y) := by
  obtain ⟨p, q, hs⟩ := h
  exact ⟨p, q ++ y.data, by simp [String.data_append, hs]⟩

theorem substrP_refl (a : String) : SubstrP a a := ⟨[], [], by simp⟩

theorem substrP_jsJoin {a : String} {l : List String} (h : a ∈ l) :
    SubstrP a (jsJoin l) := by
  induction l with
  | nil => cases h
  | cons b bs ih =>
    rcases List.mem_cons.mp h with rfl | hmem
    · exact substrP_append_right _ (substrP_refl a)
    · exact substrP_append_left b (ih hmem)

theorem substrP_ne_empty {a s : String} (ha : a.data ≠ []) (h : SubstrP a s) :
    s ≠ "" := by
  obtain ⟨p, q, hs⟩ := h
  intro hemp
  rw [hemp] at hs
  have : ([] : List Char) = p ++ a.data ++ q := hs
  rcases List.append_eq_nil.mp (List.append_eq_nil.mp this.symm).1 with ⟨_, h2⟩
  exact ha h2

theorem splitChars_ne_nil (sep : Char) (l : List Char) : splitChars sep l ≠ [] := by
  induction l with
  | nil => simp [splitChars]
  | cons c cs ih =>
    simp only [splitChars]
    split
    · simp
    · split
      · simp
      · simp

theorem splitChars_head_append (sep : Char) (l : List Char) :
    ∃ rest, l = (splitChars sep l).headD [] ++ rest := by
  induction l with
  | nil => exact ⟨[], rfl⟩
  | cons c cs ih =>
    simp only [splitChars]
    by_cases hc : c = sep
    · rw [if_pos hc]
      exact ⟨c :: cs, rfl⟩
    · rw [if_neg hc]
      obtain ⟨rest, hrest⟩ := ih
      cases hsp : splitChars sep cs with
      | nil => exact absurd hsp (splitChars_ne_nil sep cs)
      | cons p ps =>
        refine ⟨rest, ?_⟩
        rw [hsp] at hrest
        simp only [List.headD] at hrest ⊢
        rw [List.cons_append, ← hrest]

theorem mem_splitChars_run (sep : Char) {part l : List Char}
    (h : part ∈ splitChars sep l) : ∃ p q, l = p ++ part ++ q := by
  induction l generalizing part with
  | nil =>
    simp only [splitChars, List.mem_singleton] at h
    exact ⟨[], [], by simp [h]⟩
  | cons c cs ih =>
    simp only [splitChars] at h
    by_cases hc : c = sep
    · rw [if_pos hc] at h
      rcases List.mem_cons.mp h with rfl | hmem
      · exact ⟨[], c :: cs, rfl⟩
      · obtain ⟨p, q, rfl⟩ := ih hmem
        exact ⟨c :: p, q, rfl⟩
    · rw [if_neg hc] at h
      cases hsp : splitChars sep cs with
      | nil => exact absurd hsp (splitChars_ne_nil sep cs)
      | cons hd tl =>
        rw [hsp] at h
        rcases List.mem_cons.mp h with rfl | hmem
        · obtain ⟨rest, hrest⟩ := splitChars_head_append sep cs
          rw [hsp] at hrest
          simp only [List.headD] at hrest
          exact ⟨[], rest, by rw [List.nil_append, List.cons_append, ← hrest]⟩
        · obtain ⟨p, q, rfl⟩ := ih (hsp ▸ List.mem_cons_of_mem hd hmem)
          exact ⟨c :: p, q, rfl⟩

theorem splitChars_of_not_contains (sep : Char) (l : List Char)
    (h : hasSubL [sep] l = false) : splitChars sep l = [l] := by
  induction l with
  | nil => rfl
  | cons b bs ih =>
    simp only [hasSubL, startsWithL, Bool.or_eq_false_iff, Bool.and_eq_false_iff] at h
    obtain ⟨h1, h2⟩ := h
    have hb : ¬(b = sep) := by
      intro hbs
      rcases h1 with h1 | h1
      · rw [beq_eq_false_iff_ne] at h1
        exact h1 hbs.symm
      · exact absurd h1 (by simp [startsWithL])
    simp only [splitChars, if_neg hb, ih h2]

/-! ### JS numeric parsing -/

/-- Whitespace skipped by JS `parseInt` (the ASCII members; the generator only
ever parses API date strings, which use none of the exotic Unicode spaces). -/
def isJsSpace (c : Char) : Bool :=
  c = ' ' || c = '\t' || c = '\n' || c = '\r' || c = '\x0b' || c = '\x0c'

/-- Value of a run of decimal digits. -/
def decDigitsVal (ds : List Char) : ℤ :=
  ds.foldl (fun acc c => acc * 10 + ((c.toNat : ℤ) - 48)) 0

/-- Hexadecimal digit test (JS `parseInt` hex literals). -/
def isHexDigitJs (c : Char) : Bool :=
  c.isDigit || ('a' ≤ c && c ≤ 'f') || ('A' ≤ c && c ≤ 'F')

/-- Value of one hexadecimal digit. -/
def hexDigitVal (c : Char) : ℤ :=
  if c.isDigit then (c.toNat : ℤ) - 48
  else if 'a' ≤ c && c ≤ 'f' then (c.toNat : ℤ) - 87
  else (c.toNat : ℤ) - 55

/-- Value of a run of hexadecimal digits. -/
def hexDigitsVal (ds : List Char) : ℤ :=
  ds.foldl (fun acc c => acc * 16 + hexDigitVal c) 0

/-- JS `parseInt(s)` with no explicit radix: skip leading whitespace, optional
sign, then either a `0x`/`0X` hexadecimal literal or leading decimal digits;
`none` models `NaN`. Embedded over ℤ (exact where JS doubles are exact). -/
def parseIntJS (s : String) : Option ℤ :=
  let l := s.data.dropWhile isJsSpace
  let signAndRest : ℤ × List Char :=
    match l with
    | '+' :: rest => (1, rest)
    | '-' :: rest => (-1, rest)
    | _ => (1, l)
  let sign := signAndRest.1
  let l2 := signAndRest.2
  match l2 with
  | '0' :: x :: rest =>
    if x = 'x' || x = 'X' then
      let hs := rest.takeWhile isHexDigitJs
      if hs = [] then none else some (sign * hexDigitsVal hs)
    else some (sign * decDigitsVal (l2.takeWhile Char.isDigit))
  | _ =>
    let ds := l2.takeWhile Char.isDigit
    if ds = [] then none else some (sign * decDigitsVal ds)

/-! ### Data model

Records fetched from the API, as consumed by `generate-static.js`.
Fields that a record may lack (or that may fail JS truthiness checks when
empty) are `Option`s; reference lists are guarded in the source by
`Array.isArray`, so they are `Option (List String)`. -/

structure Film where
  id : String
  title : String
  original_title : String
  original_title_romanised : String
  director : String
  producer : String
  release_date : String
  running_time : String
  rt_score : String
  description : String
deriving Repr, DecidableEq

structure Person where
  id : String
  name : Option String
  gender : Option String
  age : Option String
  eye_color : Option String
  hair_color : Option String
  species : Option String
  films : Option (List String)
deriving Repr, DecidableEq

structure Species where
  id : String
  name : String
  classification : Option String
  eye_colors : Option String
  hair_colors : Option String
  people : Option (List String)
  films : Option (List String)
deriving Repr, DecidableEq

structure Location where
  id : String
  name : String
  films : Option (List String)
deriving Repr, DecidableEq

structure Vehicle where
  id : String
  name : String
  films : Option (List String)
deriving Repr, DecidableEq

/-- The combined dataset handed to the renderers (all five collections
present; `main` validates films/people/species and crashes earlier on a null
locations/vehicles, see `mainRun`). -/
structure GhibliData where
  films : List Film
  locations : List Location
  vehicles : List Vehicle
  people : List Person
  species : List Species
deriving Repr, DecidableEq

/-- The result of `fetchAllData`: each collection independently `null` on a
fetch failure. -/
structure FetchedData where
  films : Option (List Film)
  locations : Option (List Location)
  vehicles : Option (List Vehicle)
  people : Option (List Person)
  species : Option (List Species)
deriving Repr, DecidableEq

/-! ### Helper functions from generate-static.js -/

/-- `getIdFromUrl(url)`: falsy guard, then the last piece of `url.split('/')`.
(The split list is never empty, so the JS index `parts[parts.length - 1]`
is total; `getLastD` matches it.) -/
def getIdFromUrl (url : String) : Option String :=
  if url = "" then none
  else some (String.mk ((splitChars '/' url.data).getLastD []))

/-- `getLocationsForFilm(filmId, locations)`: keep the locations whose `films`
array has some URL containing `filmId` as a substring. -/
def getLocationsForFilm (filmId : String) (locations : List Location) : List Location :=
  locations.filter fun location =>
    match location.films with
    | none => false
    | some filmUrls => filmUrls.any fun filmUrl => jsIncludes filmUrl filmId

/-- `getPeopleForFilm(filmId, people)`: same substring test on each person's
`films` array. -/
def getPeopleForFilm (filmId : String) (people : List Person) : List Person :=
  people.filter fun person =>
    match person.films with
    | none => false
    | some filmUrls => filmUrls.any fun filmUrl => jsIncludes filmUrl filmId

/-- `getVehiclesForFilm(filmId, vehicles)`. -/
def getVehiclesForFilm (filmId : String) (vehicles : List Vehicle) : List Vehicle :=
  vehicles.filter fun vehicle =>
    match vehicle.films with
    | none => false
    | some filmUrls => filmUrls.any fun filmUrl => jsIncludes filmUrl filmId

/-- `getSpeciesById(speciesIdOrUrl, speciesArray)`: take the last URL segment
when the argument contains a slash, then a linear `find` by exact id. -/
def getSpeciesById (speciesIdOrUrl : String) (speciesArray : List Species) : Option Species :=
  let speciesId :=
    if jsIncludes speciesIdOrUrl "/" then
      String.mk ((splitChars '/' speciesIdOrUrl.data).getLastD [])
    else speciesIdOrUrl
  speciesArray.find? fun species => species.id == speciesId

/-- One word of `capitalize`: `charAt(0).toUpperCase() + slice(1).toLowerCase()`. -/
def capitalizeWord (word : String) : String :=
  jsToUpper (String.mk (word.data.take 1)) ++ jsToLower (String.mk (word.data.drop 1))

/-- `capitalize(str)` (call sites always pass a truthy string, so the falsy
guard is the empty-string case). -/
def capitalize (str : String) : String :=
  if str = "" || str = "n/a" || str = "NA" then str
  else jsJoinSep " " ((jsSplit ' ' str).map capitalizeWord)

/-- JS indexing `s[0]` as it behaves under string concatenation: the first
character, or the string `"undefined"` coerced by `+` when out of range. -/
def jsCharAt0 (s : String) : String :=
  match s.data with
  | [] => "undefined"
  | c :: _ => String.mk [c]

/-- `getInitials(name)`: first letters of first and last word when the name
has two or more words, else the first two characters, uppercased. -/
def getInitials (name : Option String) : String :=
  match name with
  | none => "?"
  | some n =>
    if n = "" then "?"
    else
      let parts := jsSplit ' ' n
      if parts.length ≥ 2 then
        jsToUpper (jsCharAt0 (parts.headD "") ++ jsCharAt0 (parts.getLastD ""))
      else jsToUpper (String.mk (n.data.take 2))

/-- `getAvatarColor(gender)`: falsy guard, then case-insensitive comparison
with `female` and `male`. -/
def getAvatarColor (gender : Option String) : String :=
  match gender with
  | none => "avatar-neutral"
  | some g =>
    if g = "" then "avatar-neutral"
    else
      let genderLower := jsToLower g
      if genderLower = "female" then "avatar-female"
      else if genderLower = "male" then "avatar-male"
      else "avatar-neutral"

/-- `getSpeciesHeroClass(classification)`: case-insensitive substring buckets. -/
def getSpeciesHeroClass (classification : Option String) : String :=
  match classification with
  | none => "species-hero-default"
  | some c =>
    if c = "" then "species-hero-default"
    else
      let classLower := jsToLower c
      if jsIncludes classLower "mammal" then "species-hero-mammal"
      else if jsIncludes classLower "spirit" || jsIncludes classLower "god" then
        "species-hero-spirit"
      else if jsIncludes classLower "bird" || jsIncludes classLower "avian" then
        "species-hero-bird"
      else "species-hero-default"

/-- JS `x || fallback` for an optional string (empty string is falsy). -/
def jsOrElse (o : Option String) (fallback : String) : String :=
  match o with
  | none => fallback
  | some s => if s = "" then fallback else s

/-- Truthiness of an optional JS string. -/
def jsTruthy (o : Option String) : Bool :=
  match o with
  | none => false
  | some s => s ≠ ""

/-- The `film.id.replace` call that rewrites every dash to an underscore
(global regex replace of dash with underscore). -/
def dashesToUnderscores (s : String) : String :=
  String.mk (s.data.map fun c => if c = '-' then '_' else c)

/-! ### HTML templates (transcribed from the template literals in the source) -/

/-- `getBaseTemplate(content, title)`: the film-page document shell. -/
def getBaseTemplate (content : String) (title : String) : String :=
  "<!DOCTYPE html>\n<html lang=\"en\">\n<head>\n    <meta charset=\"UTF-8\">\n" ++
  "    <meta name=\"viewport\" content=\"width=device-width, initial-scale=1.0\">\n" ++
  "    <title>" ++ title ++ "</title>\n" ++
  "    <link rel=\"stylesheet\" href=\"global-min.css\">\n" ++
  "    <link rel=\"stylesheet\" href=\"film-min.css\">\n</head>\n<body>\n" ++
  "    <div class=\"clouds\"></div>\n\n    " ++ content ++
  ("\n\n    <footer>\n" ++
  "        <div class=\"container\">\n" ++
  "            <p>Data provided by <a href=\"https://ghibliapi.vercel.app/\" target=\"_blank\">Ghibli API</a></p>\n" ++
  "            <p>&copy; 2025 Studio Ghibli Fan Site</p>\n" ++
  "        </div>\n    </footer>\n</body>\n</html>")

/-- `getSpeciesTemplate(content, title)`: the species-page document shell
(identical to the base shell except for the second stylesheet link). -/
def getSpeciesTemplate (content : String) (title : String) : String :=
  "<!DOCTYPE html>\n<html lang=\"en\">\n<head>\n    <meta charset=\"UTF-8\">\n" ++
  "    <meta name=\"viewport\" content=\"width=device-width, initial-scale=1.0\">\n" ++
  "    <title>" ++ title ++ "</title>\n" ++
  "    <link rel=\"stylesheet\" href=\"global-min.css\">\n" ++
  "    <link rel=\"stylesheet\" href=\"species-min.css\">\n</head>\n<body>\n" ++
  "    <div class=\"clouds\"></div>\n\n    " ++ content ++
  ("\n\n    <footer>\n" ++
  "        <div class=\"container\">\n" ++
  "            <p>Data provided by <a href=\"https://ghibliapi.vercel.app/\" target=\"_blank\">Ghibli API</a></p>\n" ++
  "            <p>&copy; 2025 Studio Ghibli Fan Site</p>\n" ++
  "        </div>\n    </footer>\n</body>\n</html>")

/-- `getIndexTemplate(content, title)`: the index document shell with the
decorative soot-sprite / kodama / leaf overlay markup and the reference to
the companion animation script. -/
def getIndexTemplate (content : String) (title : String) : String :=
  "<!DOCTYPE html>\n<html lang=\"en\">\n<head>\n    <meta charset=\"UTF-8\">\n" ++
  "    <meta name=\"viewport\" content=\"width=device-width, initial-scale=1.0\">\n" ++
  "    <title>" ++ title ++ "</title>\n" ++
  "    <link rel=\"stylesheet\" href=\"global-min.css\">\n" ++
  "    <link rel=\"stylesheet\" href=\"index-min.css\">\n</head>\n<body>\n    \n" ++
  "    <!-- Soot Sprites (Susuwatari) -->\n" ++
  "    <div class=\"soot-sprites\">\n" ++
  "        <div class=\"soot-sprite\" style=\"left: 10%; animation-delay: 0s; width: 28px; height: 28px;\">\n" ++
  "            <div class=\"soot-limbs\"></div>\n        </div>\n" ++
  "        <div class=\"soot-sprite\" style=\"left: 25%; animation-delay: 2s; width: 32px; height: 32px;\">\n" ++
  "            <div class=\"soot-limbs\"></div>\n        </div>\n" ++
  "        <div class=\"soot-sprite\" style=\"left: 45%; animation-delay: 4s; width: 26px; height: 26px;\">\n" ++
  "            <div class=\"soot-limbs\"></div>\n        </div>\n" ++
  "        <div class=\"soot-sprite\" style=\"left: 65%; animation-delay: 1s; width: 30px; height: 30px;\">\n" ++
  "            <div class=\"soot-limbs\"></div>\n        </div>\n" ++
  "        <div class=\"soot-sprite\" style=\"left: 80%; animation-delay: 3s; width: 34px; height: 34px;\">\n" ++
  "            <div class=\"soot-limbs\"></div>\n        </div>\n" ++
  "        <div class=\"soot-sprite\" style=\"left: 90%; animation-delay: 5s; width: 27px; height: 27px;\">\n" ++
  "            <div class=\"soot-limbs\"></div>\n        </div>\n    </div>\n    \n" ++
  "    <!-- Kodama (Tree Spirits) -->\n" ++
  "    <div class=\"kodama-container\">\n" ++
  "        <div class=\"kodama\" style=\"left: 15%; top: 20%;\"></div>\n" ++
  "        <div class=\"kodama\" style=\"left: 75%; top: 35%;\"></div>\n" ++
  "        <div class=\"kodama\" style=\"left: 30%; top: 60%;\"></div>\n    </div>\n    \n" ++
  "    <!-- Floating Leaves -->\n" ++
  "    <div class=\"leaves\">\n" ++
  "        <div class=\"leaf\" style=\"left: 20%; animation-delay: 0s;\"></div>\n" ++
  "        <div class=\"leaf\" style=\"left: 50%; animation-delay: 3s;\"></div>\n" ++
  "        <div class=\"leaf\" style=\"left: 70%; animation-delay: 6s;\"></div>\n" ++
  "        <div class=\"leaf\" style=\"left: 85%; animation-delay: 9s;\"></div>\n    </div>\n\n" ++
  "    " ++ content ++
  ("\n\n    <footer>\n" ++
  "        <div class=\"container\">\n" ++
  "            <p>Data provided by <a href=\"https://ghibliapi.vercel.app/\" target=\"_blank\">Ghibli API</a></p>\n" ++
  "            <p>&copy; 2025 Studio Ghibli Fan Site</p>\n" ++
  "        </div>\n    </footer>\n\n" ++
  "    <script src=\"soot-min.js\"></script>\n</body>\n</html>")

/-! ### Index page (generateIndexPage) -/

/-- The comparator handed to `films.sort`:
`parseInt(a.release_date) - parseInt(b.release_date)`.
`filmSortLeB a b` holds when the comparator does not order `b` strictly
before `a`; a `NaN` comparator value is treated as `0` by `Array.prototype.sort`,
hence `true` when either date fails to parse. -/
def filmSortLeB (a b : Film) : Bool :=
  match parseIntJS a.release_date, parseIntJS b.release_date with
  | some x, some y => x ≤ y
  | _, _ => true

/-- `const sortedFilms = films.sort(...)`: the in-place ES2019 stable sort,
embedded as a stable insertion sort over `filmSortLeB` (exact whenever the
comparator is consistent, i.e. when the release dates parse). The call
mutates `films`: afterwards the fetched array *is* this sorted list. -/
def sortedFilms (films : List Film) : List Film :=
  films.insertionSort fun a b => filmSortLeB a b = true

/-- One film card of the index grid (the `map` callback in
`generateIndexPage`, including the derived image URL). -/
def indexFilmCardHTML (film : Film) : String :=
  "\n            <a href=\"" ++ ("film_" ++ film.id ++ ".html") ++
  ("\" class=\"film-card\" style=\"text-decoration: none; color: inherit; cursor: pointer;\">\n" ++
  "                <img src=\"https://marsbj.folk.ntnu.no/images/films_" ++
  dashesToUnderscores film.id ++ ".webp\" alt=\"" ++ film.title ++
  "\" class=\"film-image\" loading=\"lazy\">\n" ++
  "                <div class=\"film-content\">\n" ++
  "                    <div class=\"release-year\">" ++ film.release_date ++ "</div>\n" ++
  "                    <h2>" ++ film.title ++ "</h2>\n" ++
  "                    <div class=\"original-title\">" ++ film.original_title ++ "</div>\n" ++
  "                    <div class=\"film-info\">\n" ++
  "                        <div class=\"info-item\">\n" ++
  "                            <span class=\"info-label\">Director:</span>\n" ++
  "                            <span>" ++ film.director ++ "</span>\n" ++
  "                        </div>\n" ++
  "                        <div class=\"info-item\">\n" ++
  "                            <span class=\"info-label\">Producer:</span>\n" ++
  "                            <span>" ++ film.producer ++ "</span>\n" ++
  "                        </div>\n" ++
  "                        <div class=\"info-item\">\n" ++
  "                            <span class=\"info-label\">Runtime:</span>\n" ++
  "                            <span>" ++ film.running_time ++ " mins</span>\n" ++
  "                        </div>\n" ++
  "                        <div class=\"info-item\">\n" ++
  "                            <span class=\"rt-score\">⭐ " ++ film.rt_score ++ "%</span>\n" ++
  "                        </div>\n" ++
  "                    </div>\n" ++
  "                    <div class=\"description\">\n" ++
  "                        " ++ film.description ++ "\n" ++
  "                    </div>\n" ++
  "                </div>\n" ++
  "            </a>\n        ")

/-- The `filmsHTML` local of `generateIndexPage`: cards of the (in-place)
sorted films, joined with the empty separator. -/
def indexFilmsHTML (films : List Film) : String :=
  jsJoin ((sortedFilms films).map indexFilmCardHTML)

/-- The `headerHTML` local of `generateIndexPage`. -/
def indexHeaderHTML (films : List Film) : String :=
  "\n    <header>\n        <div class=\"container\">\n" ++
  "            <h1 class=\"logo\">STUDIO GHIBLI</h1>\n" ++
  "            <p class=\"tagline\">Explore the Magical World of Ghibli</p>\n" ++
  "        </div>\n    </header>\n\n" ++
  "    <main class=\"container\">\n" ++
  "        <div id=\"films-grid\" class=\"films-grid\">\n" ++
  "            " ++ indexFilmsHTML films ++
  ("\n" ++ "        </div>\n    </main>\n    ")

/-- `generateIndexPage(films)`: the pre-minification index document. -/
def generateIndexPage (films : List Film) : String :=
  getIndexTemplate (indexHeaderHTML films) "Studio Ghibli Films"

/-- `generateIndexPage` together with the post-call state of the fetched
`films` array: `films.sort(...)` sorts the array in place, so after the call
the caller's array is the sorted one. -/
def generateIndexPageRun (films : List Film) : String × List Film :=
  (generateIndexPage films, sortedFilms films)

/-! ### Film detail page (generateFilmPage) -/

/-- JS template interpolation of a possibly-absent string (`undefined`
renders as the text `undefined`). -/
def jsShow (o : Option String) : String := o.getD "undefined"

/-- The `uniqueSpecies` Set of `generateFilmPage`: the truthy `species`
reference strings of the film's people, deduplicated by exact string
equality in first-insertion order (JS Sets preserve insertion order). -/
def dedupFirstAux (seen : List String) : List String → List String
  | [] => []
  | a :: as =>
    if seen.contains a then dedupFirstAux seen as
    else a :: dedupFirstAux (a :: seen) as

/-- First-occurrence deduplication (insertion-order JS Set contents). -/
def dedupFirst (l : List String) : List String := dedupFirstAux [] l

/-- `uniqueSpecies` as an insertion-ordered list of raw reference strings. -/
def uniqueSpecies (filmId : String) (data : GhibliData) : List String :=
  dedupFirst ((getPeopleForFilm filmId data.people).filterMap fun person =>
    match person.species with
    | some s => if s = "" then none else some s
    | none => none)

/-- One detail row of a film-page character card (the conditional
`character-detail-item` template; `label` carries the trailing colon). -/
def filmCardDetailRow (label value : String) : String :=
  "\n                        <div class=\"character-detail-item\">\n" ++
  "                            <span class=\"detail-label\">" ++ label ++ "</span>\n" ++
  "                            <span class=\"detail-value\">" ++ value ++ "</span>\n" ++
  "                        </div>\n                    "

/-- The species row of a film-page character card, present only when the
reference resolved to a species with a truthy name other than `Unknown`;
the value links to the species page via `getIdFromUrl`. -/
def filmCardSpeciesRow (speciesUrl : Option String) (speciesName : String) : String :=
  "\n                        <div class=\"character-detail-item\">\n" ++
  "                            <span class=\"detail-label\">Species:</span>\n" ++
  "                            <span class=\"detail-value\">\n" ++
  "                                " ++
  (match speciesUrl with
   | some u =>
     if u = "" then speciesName
     else "<a href=\"species_" ++ jsShow (getIdFromUrl u) ++
       ".html\" class=\"species-link\">" ++ speciesName ++ "</a>"
   | none => speciesName) ++ "\n" ++
  "                            </span>\n" ++
  "                        </div>\n                    "

/-- The `speciesName` local of the film-page card: the resolved species name
when the person's reference is a truthy string resolving to a species with a
truthy name, else the text `Unknown`. -/
def filmCardSpeciesName (person : Person) (data : GhibliData) : String :=
  match person.species with
  | some u =>
    if u = "" then "Unknown"
    else
      match getSpeciesById u data.species with
      | some speciesData => if speciesData.name = "" then "Unknown" else speciesData.name
      | none => "Unknown"
  | none => "Unknown"

/-- The `speciesUrl` local of the film-page card (set only under the same
truthy-string guard as `speciesName`). -/
def filmCardSpeciesUrl (person : Person) : Option String :=
  match person.species with
  | some u => if u = "" then none else some u
  | none => none

/-- One film-page character card (the `map` callback building
`charactersHTML`). -/
def filmCharacterCardHTML (data : GhibliData) (person : Person) : String :=
  let speciesName := filmCardSpeciesName person data
  "\n            <div class=\"character-card\">\n" ++
  ("                <div class=\"character-avatar " ++ getAvatarColor person.gender ++ "\">\n" ++
  "                    " ++ getInitials person.name ++ "\n" ++
  "                </div>\n" ++
  "                <h4>" ++ jsShow person.name ++ "</h4>\n" ++
  "                <div class=\"character-details\">\n" ++
  "                    " ++
  (if jsTruthy person.gender then
    filmCardDetailRow "Gender:" (capitalize (person.gender.getD ""))
   else "") ++ "\n" ++
  "                    " ++
  (if jsTruthy person.age then filmCardDetailRow "Age:" (person.age.getD "") else "") ++ "\n" ++
  "                    " ++
  (if jsTruthy person.eye_color then
    filmCardDetailRow "Eye Color:" (capitalize (person.eye_color.getD ""))
   else "") ++ "\n" ++
  "                    " ++
  (if jsTruthy person.hair_color then
    filmCardDetailRow "Hair Color:" (capitalize (person.hair_color.getD ""))
   else "") ++ "\n" ++
  "                    " ++
  (if speciesName ≠ "" && speciesName ≠ "Unknown" then
    filmCardSpeciesRow (filmCardSpeciesUrl person) speciesName
   else "") ++ "\n" ++
  "                </div>\n" ++
  "            </div>\n        ")

/-- The `charactersHTML` local of `generateFilmPage`. -/
def charactersHTML (filmId : String) (data : GhibliData) : String :=
  jsJoin ((getPeopleForFilm filmId data.people).map (filmCharacterCardHTML data))

/-- The `locationsHTML` local of `generateFilmPage`: location tags, or the
literal `None` tag when the film has no associated locations. -/
def locationsHTML (filmId : String) (data : GhibliData) : String :=
  let filmLocations := getLocationsForFilm filmId data.locations
  if filmLocations.length > 0 then
    jsJoin (filmLocations.map fun location =>
      "<div class=\"info-tag\">" ++ location.name ++ "</div>")
  else "<div class=\"info-tag\">None</div>"

/-- The tag rendered for one raw species reference of `uniqueSpecies`: a
link when the reference resolves, the empty string otherwise (dropped by the
`filter(html => html)` step). -/
def speciesTagHTML (speciesUrl : String) (data : GhibliData) : String :=
  match getSpeciesById speciesUrl data.species with
  | some speciesObj =>
    "<a href=\"species_" ++ speciesObj.id ++
    ".html\" class=\"info-tag\" style=\"text-decoration: none; cursor: pointer;\">" ++
    speciesObj.name ++ "</a>"
  | none => ""

/-- The `speciesHTML` local of `generateFilmPage`: when the Set is nonempty,
the resolvable references' tags (unresolvable ones filtered out as empty
strings); when the Set is empty, the literal `None` tag. -/
def speciesHTML (filmId : String) (data : GhibliData) : String :=
  let uniq := uniqueSpecies filmId data
  if uniq.length > 0 then
    jsJoin (((uniq.map fun speciesUrl => speciesTagHTML speciesUrl data).filter
      fun html => html ≠ ""))
  else "<div class=\"info-tag\">None</div>"

/-- The `vehiclesHTML` local of `generateFilmPage`. -/
def vehiclesHTML (filmId : String) (data : GhibliData) : String :=
  let filmVehicles := getVehiclesForFilm filmId data.vehicles
  if filmVehicles.length > 0 then
    jsJoin (filmVehicles.map fun vehicle =>
      "<div class=\"info-tag\">" ++ vehicle.name ++ "</div>")
  else "<div class=\"info-tag\">None</div>"

/-- The `headerHTML` local of `generateFilmPage` (banner, metadata grid,
characters grid with its empty-state fallback, and the three tag sections
with their counts). -/
def filmHeaderHTML (film : Film) (filmId : String) (data : GhibliData) : String :=
  "\n    <header>\n        <div class=\"container\">\n" ++
  "            <h1 class=\"logo\">STUDIO GHIBLI</h1>\n" ++
  "            <a href=\"index.html\" class=\"back-btn\">← Back to All Films</a>\n" ++
  "        </div>\n    </header>\n\n" ++
  "    <main class=\"container\">\n" ++
  "        <div id=\"film-detail\" class=\"film-detail\">\n" ++
  "            <div class=\"detail-hero\">\n" ++
  "                <img src=\"https://marsbj.folk.ntnu.no/images/banner_" ++
  dashesToUnderscores filmId ++ ".webp\" alt=\"" ++ film.title ++
  "\" class=\"detail-banner\" onerror=\"this.style.display=\x27none\x27\">\n" ++
  "            </div>\n            \n" ++
  "            <div class=\"detail-header\">\n" ++
  "                <h2>" ++ film.title ++ "</h2>\n" ++
  "                <div class=\"detail-original-title\">" ++ film.original_title ++
  " (" ++ film.original_title_romanised ++ ")</div>\n                \n" ++
  "                <div class=\"info-grid\">\n" ++
  "                    <div class=\"info-box\">\n" ++
  "                        <div class=\"info-box-label\">Release Year</div>\n" ++
  "                        <div class=\"info-box-value\">" ++ film.release_date ++ "</div>\n" ++
  "                    </div>\n" ++
  "                    <div class=\"info-box\">\n" ++
  "                        <div class=\"info-box-label\">Director</div>\n" ++
  "                        <div class=\"info-box-value\">" ++ film.director ++ "</div>\n" ++
  "                    </div>\n" ++
  "                    <div class=\"info-box\">\n" ++
  "                        <div class=\"info-box-label\">Producer</div>\n" ++
  "                        <div class=\"info-box-value\">" ++ film.producer ++ "</div>\n" ++
  "                    </div>\n" ++
  "                    <div class=\"info-box\">\n" ++
  "                        <div class=\"info-box-label\">Running Time</div>\n" ++
  "                        <div class=\"info-box-value\">" ++ film.running_time ++ " mins</div>\n" ++
  "                    </div>\n" ++
  "                    <div class=\"info-box\">\n" ++
  "                        <div class=\"info-box-label\">RT Score</div>\n" ++
  "                        <div class=\"info-box-value\">⭐ " ++ film.rt_score ++ "%</div>\n" ++
  "                    </div>\n" ++
  "                </div>\n                \n" ++
  "                <div class=\"detail-description\">\n" ++
  "                    " ++ film.description ++ "\n" ++
  "                </div>\n" ++
  "            </div>\n            \n" ++
  "            <div class=\"characters-section\">\n" ++
  "                <h3 class=\"section-title\">Characters (" ++
  toString (getPeopleForFilm filmId data.people).length ++ ")</h3>\n" ++
  "                <div id=\"characters-grid\" class=\"characters-grid\">\n" ++
  "                    " ++
  (if charactersHTML filmId data = "" then
    "<p style=\"text-align: center; grid-column: 1/-1; color: var(--text-dark);\">No character information available.</p>"
   else charactersHTML filmId data) ++
  ("\n" ++
  "                </div>\n" ++
  "            </div>\n            \n" ++
  "            <div class=\"additional-section\">\n" ++
  "                <h3 class=\"section-title\">Additional Information</h3>\n                \n" ++
  "                <div class=\"info-section\">\n" ++
  "                    <h4>Locations (" ++
  toString (getLocationsForFilm filmId data.locations).length ++ ")</h4>\n" ++
  "                    <div class=\"info-list\" id=\"locations-list\">\n" ++
  "                        " ++ locationsHTML filmId data ++ "\n" ++
  "                    </div>\n" ++
  "                </div>\n                \n" ++
  "                <div class=\"info-section\">\n" ++
  "                    <h4>Species (" ++
  toString (uniqueSpecies filmId data).length ++ ")</h4>\n" ++
  "                    <div class=\"info-list\" id=\"species-list\">\n" ++
  "                        " ++ speciesHTML filmId data ++ "\n" ++
  "                    </div>\n" ++
  "                </div>\n                \n" ++
  "                <div class=\"info-section\">\n" ++
  "                    <h4>Vehicles (" ++
  toString (getVehiclesForFilm filmId data.vehicles).length ++ ")</h4>\n" ++
  "                    <div class=\"info-list\" id=\"vehicles-list\">\n" ++
  "                        " ++ vehiclesHTML filmId data ++ "\n" ++
  "                    </div>\n" ++
  "                </div>\n" ++
  "            </div>\n" ++
  "        </div>\n    </main>\n    ")

/-- `generateFilmPage(film, filmId, data)`: the pre-minification film
document. -/
def generateFilmPage (film : Film) (filmId : String) (data : GhibliData) : String :=
  getBaseTemplate (filmHeaderHTML film filmId data) (film.title ++ " - Studio Ghibli")

/-- `generateFilmPage` with the post-call dataset state: the body only reads
the dataset (filter, map, find, Set construction), so the state is returned
unchanged. -/
def generateFilmPageRun (film : Film) (filmId : String) (data : GhibliData) :
    String × GhibliData :=
  (generateFilmPage film filmId data, data)

/-! ### Species detail page (generateSpeciesPage) -/

/-- The degenerate-reference filter of `generateSpeciesPage`: drop empty URL
segments, take the last remaining one, and reject it when it equals one of
the five collection names (a reference with no nonempty segment has an
`undefined` last part, which `includes` never matches, so it is kept). -/
def refKept (url : String) : Bool :=
  let parts := (jsSplit '/' url).filter fun part => part.length > 0
  match parts.getLast? with
  | some lastPart =>
    !(["people", "locations", "species", "vehicles", "films"].contains lastPart)
  | none => true

/-- The `speciesPeople` local: filter the degenerate references, resolve each
remaining URL by exact person id, and drop unresolved ones (`filter(p => p)`). -/
def speciesPeople (species : Species) (data : GhibliData) : List Person :=
  match species.people with
  | some urls =>
    (urls.filter refKept).filterMap fun url =>
      match getIdFromUrl url with
      | some personId => data.people.find? fun p => p.id == personId
      | none => none
  | none => []

/-- The `speciesFilms` local: same pipeline over the species' film references. -/
def speciesFilms (species : Species) (data : GhibliData) : List Film :=
  match species.films with
  | some urls =>
    (urls.filter refKept).filterMap fun url =>
      match getIdFromUrl url with
      | some filmId => data.films.find? fun f => f.id == filmId
      | none => none
  | none => []

/-- One detail row of a species-page character card. -/
def speciesCardDetailRow (label value : String) : String :=
  "\n                    <div class=\"character-detail-item\">\n" ++
  "                        <span class=\"detail-label\">" ++ label ++ "</span>\n" ++
  "                        <span class=\"detail-value\">" ++ value ++ "</span>\n" ++
  "                    </div>\n                "

/-- One species-page character card (the `map` callback building
`peopleHTML`; no species row on this page). -/
def speciesCharacterCardHTML (person : Person) : String :=
  "\n        <div class=\"character-card\">\n" ++
  "            <div class=\"character-avatar " ++ getAvatarColor person.gender ++ "\">\n" ++
  "                " ++ getInitials person.name ++ "\n" ++
  "            </div>\n" ++
  "            <h4>" ++ jsShow person.name ++ "</h4>\n" ++
  "            <div class=\"character-details\">\n" ++
  "                " ++
  (if jsTruthy person.gender then
    speciesCardDetailRow "Gender:" (capitalize (person.gender.getD ""))
   else "") ++ "\n" ++
  "                " ++
  (if jsTruthy person.age then speciesCardDetailRow "Age:" (person.age.getD "") else "") ++ "\n" ++
  "                " ++
  (if jsTruthy person.eye_color then
    speciesCardDetailRow "Eye Color:" (capitalize (person.eye_color.getD ""))
   else "") ++ "\n" ++
  "                " ++
  (if jsTruthy person.hair_color then
    speciesCardDetailRow "Hair Color:" (capitalize (person.hair_color.getD ""))
   else "") ++ "\n" ++
  "            </div>\n" ++
  "        </div>\n    "

/-- The `peopleHTML` local of `generateSpeciesPage`. -/
def speciesPeopleHTML (species : Species) (data : GhibliData) : String :=
  jsJoin ((speciesPeople species data).map speciesCharacterCardHTML)

/-- The `filmsHTML` local of `generateSpeciesPage`: film tags linking to the
film pages, or the literal `None` tag. -/
def speciesFilmsHTML (species : Species) (data : GhibliData) : String :=
  let films := speciesFilms species data
  if films.length > 0 then
    jsJoin (films.map fun film =>
      "<a href=\"film_" ++ film.id ++
      ".html\" class=\"info-tag\" style=\"text-decoration: none; cursor: pointer;\">" ++
      film.title ++ "</a>")
  else "<div class=\"info-tag\">None</div>"

/-- The `headerHTML` local of `generateSpeciesPage`. -/
def speciesHeaderHTML (species : Species) (data : GhibliData) : String :=
  "\n    <header>\n        <div class=\"container\">\n" ++
  "            <h1 class=\"logo\">STUDIO GHIBLI</h1>\n" ++
  "            <div style=\"display: flex; gap: 15px; justify-content: center; flex-wrap: wrap;\">\n" ++
  "                <a href=\"index.html\" class=\"back-btn\">← All Films</a>\n" ++
  "                <a href=\"javascript:history.back()\" class=\"back-btn\">← Back</a>\n" ++
  "            </div>\n" ++
  "        </div>\n    </header>\n\n" ++
  "    <main class=\"container\">\n" ++
  "        <div id=\"species-detail\" class=\"species-detail\">\n" ++
  "            <div class=\"species-hero " ++ getSpeciesHeroClass species.classification ++ "\">\n" ++
  "                <div class=\"species-hero-content\">\n" ++
  "                    <h2 class=\"species-hero-title\">" ++ species.name ++ "</h2>\n" ++
  "                    <p class=\"species-hero-subtitle\">" ++
  jsOrElse species.classification "Unknown Classification" ++ "</p>\n" ++
  "                </div>\n" ++
  "            </div>\n            \n" ++
  "            <div class=\"detail-header\">\n" ++
  "                <h2>" ++ species.name ++ "</h2>\n                \n" ++
  "                <div class=\"info-grid\">\n" ++
  "                    <div class=\"info-box\">\n" ++
  "                        <div class=\"info-box-label\">Classification</div>\n" ++
  "                        <div class=\"info-box-value\">" ++
  jsOrElse species.classification "Unknown" ++ "</div>\n" ++
  "                    </div>\n" ++
  "                    <div class=\"info-box\">\n" ++
  "                        <div class=\"info-box-label\">Eye Colors</div>\n" ++
  "                        <div class=\"info-box-value\">" ++
  jsOrElse species.eye_colors "Unknown" ++ "</div>\n" ++
  "                    </div>\n" ++
  "                    <div class=\"info-box\">\n" ++
  "                        <div class=\"info-box-label\">Hair Colors</div>\n" ++
  "                        <div class=\"info-box-value\">" ++
  jsOrElse species.hair_colors "Unknown" ++ "</div>\n" ++
  "                    </div>\n" ++
  "                </div>\n" ++
  "            </div>\n            \n" ++
  "            <div class=\"characters-section\">\n" ++
  "                <h3 class=\"section-title\">Characters of this Species (" ++
  toString (speciesPeople species data).length ++ ")</h3>\n" ++
  "                <div id=\"people-grid\" class=\"characters-grid\">\n" ++
  "                    " ++
  (if speciesPeopleHTML species data = "" then
    "<p style=\"text-align: center; grid-column: 1/-1; color: var(--text-dark);\">No characters data available.</p>"
   else speciesPeopleHTML species data) ++ "\n" ++
  "                </div>\n" ++
  "            </div>\n            \n" ++
  "            <div class=\"additional-section\">\n" ++
  "                <h3 class=\"section-title\">Films Featuring this Species</h3>\n" ++
  "                <div id=\"films-list\" class=\"info-list\">\n" ++
  "                    " ++ speciesFilmsHTML species data ++ "\n" ++
  "                </div>\n" ++
  "            </div>\n" ++
  "        </div>\n    </main>\n    "

/-- `generateSpeciesPage(species, speciesId, data)`: the pre-minification
species document (the `speciesId` argument is unused by the source body
except through `species` itself). -/
def generateSpeciesPage (species : Species) (data : GhibliData) : String :=
  getSpeciesTemplate (speciesHeaderHTML species data) (species.name ++ " - Studio Ghibli")

/-- `generateSpeciesPage` with the post-call dataset state: the body only
reads the dataset, so the state is returned unchanged. -/
def generateSpeciesPageRun (species : Species) (data : GhibliData) :
    String × GhibliData :=
  (generateSpeciesPage species data, data)

/-! ### File writer and orchestrator (generateStaticFiles, main) -/

/-- The file names `generateStaticFiles` writes: `index.html`, one
`film_<id>.html` per film and one `species_<id>.html` per species. The film
loop iterates over `data.films` *after* `generateIndexPage` sorted that array
in place, hence the sorted order here. -/
def writtenFileNames (data : GhibliData) : List String :=
  "index.html" ::
    ((sortedFilms data.films).map (fun film => "film_" ++ film.id ++ ".html") ++
      data.species.map fun species => "species_" ++ species.id ++ ".html")

/-- Outcome of one `main` run: `done` (exit code 0) with the written file
names, or `failed` (exit code 1) with the files written before the failure. -/
inductive RunOutcome where
  | done (written : List String)
  | failed (written : List String) (message : String)
deriving Repr, DecidableEq

/-- `main()`: validate that films, people and species fetched non-null, then
log the collection sizes and generate all files. The size log dereferences
`data.locations.length` and `data.vehicles.length` unconditionally, so a
null locations or vehicles collection throws a `TypeError` there (before any
file is written); the `catch` block logs it and exits with status 1. -/
def mainRun (d : FetchedData) : RunOutcome :=
  match d.films, d.people, d.species with
  | some films, some people, some species =>
    match d.locations with
    | none => .failed []
        "TypeError: Cannot read properties of null (reading \x27length\x27)"
    | some locations =>
      match d.vehicles with
      | none => .failed []
          "TypeError: Cannot read properties of null (reading \x27length\x27)"
      | some vehicles =>
        .done (writtenFileNames ⟨films, locations, vehicles, people, species⟩)
  | _, _, _ => .failed [] "Failed to fetch required data"

/-- The process exit status of a `main` run. -/
def mainExitCode (d : FetchedData) : Nat :=
  match mainRun d with
  | .done _ => 0
  | .failed _ _ => 1

/-! ### Emitted internal link targets

Shadow definitions collecting, for each page, exactly the `film_<id>.html` /
`species_<id>.html` href values its template emits (used to check the
link-target/filename contract). -/

/-- Link targets on the index page: one per film card. -/
def indexPageLinkTargets (films : List Film) : List String :=
  (sortedFilms films).map fun film => "film_" ++ film.id ++ ".html"

/-- The species link of one film-page character card, when its emission
condition (truthy resolved name, not `Unknown`, truthy `speciesUrl`) holds. -/
def filmCardSpeciesLinkTarget (person : Person) (data : GhibliData) : Option String :=
  let speciesName := filmCardSpeciesName person data
  if speciesName ≠ "" && speciesName ≠ "Unknown" then
    match filmCardSpeciesUrl person with
    | some u => some ("species_" ++ jsShow (getIdFromUrl u) ++ ".html")
    | none => none
  else none

/-- Link targets on one film page: the character-card species links and the
species-section tag links. -/
def filmPageLinkTargets (filmId : String) (data : GhibliData) : List String :=
  ((getPeopleForFilm filmId data.people).filterMap fun person =>
    filmCardSpeciesLinkTarget person data) ++
  ((uniqueSpecies filmId data).filterMap fun speciesUrl =>
    match getSpeciesById speciesUrl data.species with
    | some speciesObj => some ("species_" ++ speciesObj.id ++ ".html")
    | none => none)

/-- Link targets on one species page: the film tags. -/
def speciesPageLinkTargets (species : Species) (data : GhibliData) : List String :=
  (speciesFilms species data).map fun film => "film_" ++ film.id ++ ".html"

/-- All `film_`/`species_` link targets emitted across the whole generated
site. -/
def allEmittedLinkTargets (data : GhibliData) : List String :=
  indexPageLinkTargets data.films ++
  (data.films.flatMap fun film => filmPageLinkTargets film.id data) ++
  (data.species.flatMap fun species => speciesPageLinkTargets species data)

/-! ### Soot-sprite particle animation (the unnamed front-end script)

`Math.random()` outcomes are passed in as rational parameters in `[0, 1)`;
JS double arithmetic is embedded as exact rational arithmetic (exact at
these magnitudes up to ulp-level differences that cannot cross the claimed
bounds). The trigonometric direction (`cos`/`sin` of the random angle) is
not modelled: no claim constrains it, only the pre-projection magnitudes. -/

/-- JS `Math.round`: floor of `q + 1/2` (rounds halves up, also for
negative arguments). -/
def jsMathRound (q : ℚ) : ℤ := ⌊q + 1/2⌋

/-- The quantities of one spawned particle (`createParticle`):
`size = 4 + r*4`, `dist = 40 + r*120`, `upwardBias = -20 - r*60`,
`rot = Math.round((r - 0.5) * 720)`, and removal after a fixed 1450 ms
timeout. -/
structure SootParticle where
  size : ℚ
  dist : ℚ
  upwardBias : ℚ
  rot : ℤ
  removeAfterMs : ℕ
deriving Repr, DecidableEq

/-- `createParticle(x, y)` with its four `Math.random()` draws made explicit
(the click coordinates only translate the particle and are omitted). -/
def createParticle (rSize rDist rUp rRot : ℚ) : SootParticle :=
  { size := 4 + rSize * 4
    dist := 40 + rDist * 120
    upwardBias := -20 - rUp * 60
    rot := jsMathRound ((rRot - 1/2) * 720)
    removeAfterMs := 1450 }

/-- The sprite's own `sootDisintegrate` animation duration (ms). -/
def sootDisintegrateMs : ℕ := 1100

/-- The particle count drawn in `triggerSootExplosion`:
`22 + Math.floor(Math.random() * 16)`. -/
def particleCount (rCount : ℚ) : ℤ := 22 + ⌊rCount * 16⌋

/-- `triggerSootExplosion(sprite, e)`: a sprite already in the exploding
state spawns nothing (early return); otherwise it spawns `particleCount`
particles, each from four fresh random draws. -/
def triggerSootExplosion (alreadyExploding : Bool) (rCount : ℚ)
    (draws : ℕ → ℚ × ℚ × ℚ × ℚ) : Option (List SootParticle) :=
  if alreadyExploding then none
  else some ((List.range (particleCount rCount).toNat).map fun i =>
    createParticle (draws i).1 (draws i).2.1 (draws i).2.2.1 (draws i).2.2.2)

/-! ### Concrete demonstration records used by witnesses and counterexamples -/

def demoFilm : Film :=
  ⟨"f1", "Castle", "Shiro", "Shiro no Sh/iro", "Miyazaki", "Suzuki", "1988",
    "86", "95", "A film."⟩

def demoFilm2 : Film :=
  ⟨"f2", "Valley", "Tani", "Tani no Tani", "Miyazaki", "Takahata", "1984",
    "117", "90", "Another film."⟩

def demoPerson : Person :=
  ⟨"p1", some "San Mononoke", some "Female", some "15", some "brown",
    some "black", some "https://x/species/s1", some ["https://x/films/f1"]⟩

def demoSpecies : Species :=
  ⟨"s1", "Human", some "Mammal", some "brown", some "black",
    some ["https://x/people/p1"], some ["https://x/films/f1"]⟩

def demoData : GhibliData :=
  ⟨[demoFilm, demoFilm2], [], [], [demoPerson], [demoSpecies]⟩

/-! ### Claim theorems -/

/-- C7: for every person, the avatar class is determined by a
case-insensitive comparison of the gender field: `Female`/`female` yield
`avatar-female`, `male` in any case yields `avatar-male`, and an absent
gender or any other value yields `avatar-neutral`. -/
theorem claim_C7 :
    getAvatarColor (some "Female") = "avatar-female" ∧
    getAvatarColor (some "female") = "avatar-female" ∧
    getAvatarColor none = "avatar-neutral" ∧
    (∀ g : String, jsToLower g = "female" → getAvatarColor (some g) = "avatar-female") ∧
    (∀ g : String, jsToLower g = "male" → getAvatarColor (some g) = "avatar-male") ∧
    (∀ g : String, jsToLower g ≠ "female" → jsToLower g ≠ "male" →
      getAvatarColor (some g) = "avatar-neutral") := by
  refine ⟨by decide, by decide, rfl, ?_, ?_, ?_⟩
  · intro g h
    have hg : g ≠ "" := by
      rintro rfl
      exact absurd h (by decide)
    simp only [getAvatarColor, if_neg hg, h]
    decide
  · intro g h
    have hg : g ≠ "" := by
      rintro rfl
      exact absurd h (by decide)
    simp only [getAvatarColor, if_neg hg, h]
    decide
  · intro g h1 h2
    by_cases hg : g = ""
    · simp [getAvatarColor, hg]
    · simp only [getAvatarColor, if_neg hg]
      rw [if_neg h1, if_neg h2]

/-- C7 witness: concrete gender strings exercising each hypothesis of
`claim_C7`. -/
theorem claim_C7_witness :
    jsToLower "FeMale" = "female" ∧ getAvatarColor (some "FeMale") = "avatar-female" ∧
    jsToLower "MALE" = "male" ∧ getAvatarColor (some "MALE") = "avatar-male" ∧
    jsToLower "Totoro" ≠ "female" ∧ jsToLower "Totoro" ≠ "male" ∧
    getAvatarColor (some "Totoro") = "avatar-neutral" :=
  ⟨by decide, claim_C7.2.2.2.1 "FeMale" (by decide),
   by decide, claim_C7.2.2.2.2.1 "MALE" (by decide),
   by decide, by decide,
   claim_C7.2.2.2.2.2 "Totoro" (by decide) (by decide)⟩

/-- C1 (claim refuted by the code, which here contradicts its own
validation step): with films, people and species fetched and the locations
(or vehicles) collection null, `main` does *not* complete with exit 0 and
`None` tags — the unconditional `data.locations.length` /
`data.vehicles.length` log dereferences null, the thrown `TypeError` is
caught, no file is written and the process exits 1. With all five
collections present the same run exits 0. -/
theorem claim_C1 :
    mainRun ⟨some [demoFilm], none, some [], some [demoPerson], some [demoSpecies]⟩ =
      .failed [] "TypeError: Cannot read properties of null (reading \x27length\x27)" ∧
    mainExitCode ⟨some [demoFilm], none, some [], some [demoPerson], some [demoSpecies]⟩ = 1 ∧
    mainExitCode ⟨some [demoFilm], some [], none, some [demoPerson], some [demoSpecies]⟩ = 1 ∧
    mainExitCode ⟨some [demoFilm], some [], some [], some [demoPerson], some [demoSpecies]⟩ = 0 := by
  decide

/-- C8: rendering is deterministic — on byte-identical fetched datasets the
three page renderers produce byte-identical pre-minification HTML strings. -/
theorem claim_C8 (films1 films2 : List Film) (d1 d2 : GhibliData)
    (film : Film) (filmId : String) (species : Species)
    (hf : films1 = films2) (hd : d1 = d2) :
    generateIndexPage films1 = generateIndexPage films2 ∧
    generateFilmPage film filmId d1 = generateFilmPage film filmId d2 ∧
    generateSpeciesPage species d1 = generateSpeciesPage species d2 := by
  subst hf
  subst hd
  exact ⟨rfl, rfl, rfl⟩

/-- C8 witness: the determinism theorem applied at a concrete dataset. -/
theorem claim_C8_witness :
    generateIndexPage [demoFilm, demoFilm2] = generateIndexPage [demoFilm, demoFilm2] ∧
    generateFilmPage demoFilm "f1" demoData = generateFilmPage demoFilm "f1" demoData ∧
    generateSpeciesPage demoSpecies demoData = generateSpeciesPage demoSpecies demoData :=
  claim_C8 [demoFilm, demoFilm2] [demoFilm, demoFilm2] demoData demoData
    demoFilm "f1" demoSpecies rfl rfl

/-- C9 counterexample: the claim bounds each particle's rotation by the open
interval (-360, 360), but a zero rotation draw yields exactly
`Math.round(-360) = -360`, outside the open interval. -/
theorem claim_C9_counterexample :
    (createParticle 0 0 0 0).rot = -360 ∧
    ¬(-360 < (createParticle 0 0 0 0).rot ∧ (createParticle 0 0 0 0).rot < 360) := by
  have h : (createParticle 0 0 0 0).rot = -360 := by
    show jsMathRound ((0 - 1/2) * 720) = -360
    rw [jsMathRound, Int.floor_eq_iff]
    norm_num
  exact ⟨h, by rw [h]; omega⟩

/-- C9 amended: for a click on a sprite not already exploding, the explosion
spawns between 22 and 37 particles inclusive; each particle's size lies in
[4, 8), its travel distance in [40, 160), its upward offset magnitude in
[20, 80), and its rotation in the *closed* interval [-360, 360]; each
particle self-removes after exactly 1450 ms, exceeding the sprite's 1100 ms
transition; a sprite already exploding spawns nothing. -/
theorem claim_C9_amended (rCount rSize rDist rUp rRot : ℚ)
    (draws : ℕ → ℚ × ℚ × ℚ × ℚ)
    (hC : 0 ≤ rCount ∧ rCount < 1) (hS : 0 ≤ rSize ∧ rSize < 1)
    (hD : 0 ≤ rDist ∧ rDist < 1) (hU : 0 ≤ rUp ∧ rUp < 1)
    (hR : 0 ≤ rRot ∧ rRot < 1) :
    (22 ≤ particleCount rCount ∧ particleCount rCount ≤ 37) ∧
    (4 ≤ (createParticle rSize rDist rUp rRot).size ∧
      (createParticle rSize rDist rUp rRot).size < 8) ∧
    (40 ≤ (createParticle rSize rDist rUp rRot).dist ∧
      (createParticle rSize rDist rUp rRot).dist < 160) ∧
    (20 ≤ -(createParticle rSize rDist rUp rRot).upwardBias ∧
      -(createParticle rSize rDist rUp rRot).upwardBias < 80) ∧
    (-360 ≤ (createParticle rSize rDist rUp rRot).rot ∧
      (createParticle rSize rDist rUp rRot).rot ≤ 360) ∧
    ((createParticle rSize rDist rUp rRot).removeAfterMs = 1450 ∧
      sootDisintegrateMs < (createParticle rSize rDist rUp rRot).removeAfterMs) ∧
    triggerSootExplosion true rCount draws = none ∧
    (∃ ps, triggerSootExplosion false rCount draws = some ps ∧
      ps.length = (particleCount rCount).toNat) := by
  obtain ⟨hC0, hC1⟩ := hC
  obtain ⟨hS0, hS1⟩ := hS
  obtain ⟨hD0, hD1⟩ := hD
  obtain ⟨hU0, hU1⟩ := hU
  obtain ⟨hR0, hR1⟩ := hR
  refine ⟨⟨?_, ?_⟩, ⟨?_, ?_⟩, ⟨?_, ?_⟩, ⟨?_, ?_⟩, ⟨?_, ?_⟩, ⟨rfl, ?_⟩, rfl, ?_⟩
  · have h0 : (0 : ℤ) ≤ ⌊rCount * 16⌋ := Int.floor_nonneg.mpr (by nlinarith)
    simp only [particleCount]
    omega
  · have h16 : ⌊rCount * 16⌋ < (16 : ℤ) := Int.floor_lt.mpr (by push_cast; nlinarith)
    simp only [particleCount]
    omega
  · show 4 ≤ 4 + rSize * 4
    nlinarith
  · show 4 + rSize * 4 < 8
    nlinarith
  · show 40 ≤ 40 + rDist * 120
    nlinarith
  · show 40 + rDist * 120 < 160
    nlinarith
  · show 20 ≤ -(-20 - rUp * 60)
    nlinarith
  · show -(-20 - rUp * 60) < 80
    nlinarith
  · show (-360 : ℤ) ≤ jsMathRound ((rRot - 1/2) * 720)
    rw [jsMathRound]
    refine Int.le_floor.mpr ?_
    push_cast
    nlinarith
  · show jsMathRound ((rRot - 1/2) * 720) ≤ (360 : ℤ)
    rw [jsMathRound]
    have : ⌊(rRot - 1/2) * 720 + 1/2⌋ < (361 : ℤ) := Int.floor_lt.mpr (by push_cast; nlinarith)
    omega
  · show sootDisintegrateMs < (createParticle rSize rDist rUp rRot).removeAfterMs
    norm_num [createParticle, sootDisintegrateMs]
  · exact ⟨_, rfl, by simp [triggerSootExplosion]⟩

/-- C9 witness: the amended theorem applied at zero random draws. -/
theorem claim_C9_witness :
    ((0:ℚ) ≤ 0 ∧ (0:ℚ) < 1) ∧
    ((22 ≤ particleCount 0 ∧ particleCount 0 ≤ 37) ∧
    (4 ≤ (createParticle 0 0 0 0).size ∧ (createParticle 0 0 0 0).size < 8) ∧
    (40 ≤ (createParticle 0 0 0 0).dist ∧ (createParticle 0 0 0 0).dist < 160) ∧
    (20 ≤ -(createParticle 0 0 0 0).upwardBias ∧
      -(createParticle 0 0 0 0).upwardBias < 80) ∧
    (-360 ≤ (createParticle 0 0 0 0).rot ∧ (createParticle 0 0 0 0).rot ≤ 360) ∧
    ((createParticle 0 0 0 0).removeAfterMs = 1450 ∧
      sootDisintegrateMs < (createParticle 0 0 0 0).removeAfterMs) ∧
    triggerSootExplosion true 0 (fun _ => (0, 0, 0, 0)) = none ∧
    (∃ ps, triggerSootExplosion false 0 (fun _ => (0, 0, 0, 0)) = some ps ∧
      ps.length = (particleCount 0).toNat)) :=
  ⟨⟨le_refl 0, by norm_num⟩,
   claim_C9_amended 0 0 0 0 0 (fun _ => (0, 0, 0, 0))
     ⟨le_refl 0, by norm_num⟩ ⟨le_refl 0, by norm_num⟩ ⟨le_refl 0, by norm_num⟩
     ⟨le_refl 0, by norm_num⟩ ⟨le_refl 0, by norm_num⟩⟩

/-! #### Page-level substring plumbing -/

theorem append_ne_empty_left (pre x : String) (h : pre.data ≠ []) : pre ++ x ≠ "" :=
  substrP_ne_empty h (substrP_append_right x (substrP_refl pre))

theorem ne_empty_data_ne_nil {s : String} (h : s ≠ "") : s.data ≠ [] := fun hd =>
  h (String.ext (by rw [hd]))

theorem substrP_getBaseTemplate (content title : String) :
    SubstrP content (getBaseTemplate content title) := by
  unfold getBaseTemplate
  exact substrP_of_append content _ _

theorem substrP_getIndexTemplate (content title : String) :
    SubstrP content (getIndexTemplate content title) := by
  unfold getIndexTemplate
  exact substrP_of_append content _ _

theorem substrP_getSpeciesTemplate (content title : String) :
    SubstrP content (getSpeciesTemplate content title) := by
  unfold getSpeciesTemplate
  exact substrP_of_append content _ _

theorem filmCharacterCardHTML_ne_empty (data : GhibliData) (person : Person) :
    filmCharacterCardHTML data person ≠ "" := by
  unfold filmCharacterCardHTML
  exact append_ne_empty_left _ _ (by decide)

theorem charactersHTML_ne_empty {filmId : String} {data : GhibliData} {p : Person}
    (hp : p ∈ getPeopleForFilm filmId data.people) :
    charactersHTML filmId data ≠ "" := by
  have hsub : SubstrP (filmCharacterCardHTML data p) (charactersHTML filmId data) :=
    substrP_jsJoin (List.mem_map_of_mem (filmCharacterCardHTML data) hp)
  exact substrP_ne_empty (ne_empty_data_ne_nil (filmCharacterCardHTML_ne_empty data p)) hsub

theorem substrP_charactersHTML_header (film : Film) (filmId : String) (data : GhibliData)
    (hch : charactersHTML filmId data ≠ "") :
    SubstrP (charactersHTML filmId data) (filmHeaderHTML film filmId data) := by
  unfold filmHeaderHTML
  rw [if_neg hch]
  exact substrP_of_append _ _ _

theorem filmPage_contains_card {film : Film} {filmId : String} {data : GhibliData}
    {p : Person} (hp : p ∈ getPeopleForFilm filmId data.people) :
    SubstrP (filmCharacterCardHTML data p) (generateFilmPage film filmId data) := by
  have h1 : SubstrP (filmCharacterCardHTML data p) (charactersHTML filmId data) :=
    substrP_jsJoin (List.mem_map_of_mem (filmCharacterCardHTML data) hp)
  have h2 := substrP_charactersHTML_header film filmId data (charactersHTML_ne_empty hp)
  exact substrP_trans h1 (substrP_trans h2 (substrP_getBaseTemplate _ _))

/-- Trailing URL segment extraction yields a substring of the URL. -/
theorem substrP_of_getIdFromUrl {url seg : String} (h : getIdFromUrl url = some seg) :
    SubstrP seg url := by
  unfold getIdFromUrl at h
  by_cases hu : url = ""
  · rw [if_pos hu] at h
    cases h
  · rw [if_neg hu] at h
    have hseg := Option.some.inj h
    have hmem : (splitChars '/' url.data).getLastD [] ∈ splitChars '/' url.data := by
      have hne := splitChars_ne_nil '/' url.data
      rw [List.getLastD_eq_getLast? _ _, List.getLast?_eq_getLast _ hne]
      simp only [Option.getD_some]
      exact List.getLast_mem hne
    obtain ⟨p, q, hpq⟩ := mem_splitChars_run '/' hmem
    refine ⟨p, q, ?_⟩
    rw [← hseg]
    exact hpq

/-- C2 counterexample: the claim says no rendering call changes the order of
`data.films`, but `generateIndexPage` sorts the fetched array in place —
with two films fetched out of release order, the array differs after the
call. -/
theorem claim_C2_counterexample :
    (generateIndexPageRun [demoFilm, demoFilm2]).2 ≠ [demoFilm, demoFilm2] := by
  decide

/-- C2 amended: `generateFilmPage` and `generateSpeciesPage` leave the
fetched dataset unchanged, and `generateIndexPage` mutates no record and
keeps the same multiset of films, but sorts the fetched `films` array in
place — after the call the array is the release-date-sorted permutation of
its previous value (so it is unchanged only when already sorted). -/
theorem claim_C2_amended (films : List Film) (data : GhibliData)
    (film : Film) (filmId : String) (species : Species) :
    (generateIndexPageRun films).2 = sortedFilms films ∧
    List.Perm (sortedFilms films) films ∧
    (generateFilmPageRun film filmId data).2 = data ∧
    (generateSpeciesPageRun species data).2 = data :=
  ⟨rfl, List.perm_insertionSort _ films, rfl, rfl⟩

def demoPerson3 : Person :=
  ⟨"p3", some "Ashitaka", some "male", none, none, none, none,
    some ["https://x/films/f12"]⟩

def demoData3 : GhibliData := ⟨[demoFilm], [], [], [demoPerson3], []⟩

/-- C3 counterexample: the claim's converse fails because association uses
substring containment, not trailing-segment equality — this person's only
film reference has trailing segment `f12`, not `f1`, yet the person is
associated with film `f1` (since `f1` occurs inside the URL) and their
character card appears on the `f1` film page. -/
theorem claim_C3_counterexample :
    demoPerson3.films = some ["https://x/films/f12"] ∧
    getIdFromUrl "https://x/films/f12" = some "f12" ∧
    getIdFromUrl "https://x/films/f12" ≠ some "f1" ∧
    demoPerson3 ∈ getPeopleForFilm "f1" demoData3.people ∧
    SubstrP (filmCharacterCardHTML demoData3 demoPerson3)
      (generateFilmPage demoFilm "f1" demoData3) :=
  ⟨by decide, by decide, by decide, by decide, filmPage_contains_card (by decide)⟩

/-- C3 amended: if some URL in a person's films list has trailing segment
equal to the film's id, the person's character card appears on that film's
page (the forward direction of the claim holds); but a card appears exactly
when some URL *contains* the film id as a substring, which is weaker than
the claimed trailing-segment converse. -/
theorem claim_C3_amended (data : GhibliData) (film : Film) (p : Person)
    (_hfilm : film ∈ data.films) (hp : p ∈ data.people) :
    ((∃ urls, p.films = some urls ∧ ∃ u ∈ urls, getIdFromUrl u = some film.id) →
      p ∈ getPeopleForFilm film.id data.people) ∧
    (p ∈ getPeopleForFilm film.id data.people ↔
      (∃ urls, p.films = some urls ∧ ∃ u ∈ urls, jsIncludes u film.id = true)) ∧
    (p ∈ getPeopleForFilm film.id data.people →
      SubstrP (filmCharacterCardHTML data p) (generateFilmPage film film.id data)) := by
  have hiff : p ∈ getPeopleForFilm film.id data.people ↔
      (∃ urls, p.films = some urls ∧ ∃ u ∈ urls, jsIncludes u film.id = true) := by
    unfold getPeopleForFilm
    rw [List.mem_filter]
    constructor
    · rintro ⟨-, hpred⟩
      cases hfs : p.films with
      | none => rw [hfs] at hpred; cases hpred
      | some urls =>
        rw [hfs] at hpred
        obtain ⟨u, hu, hinc⟩ := List.any_eq_true.mp hpred
        exact ⟨urls, rfl, u, hu, hinc⟩
    · rintro ⟨urls, hfs, u, hu, hinc⟩
      refine ⟨hp, ?_⟩
      rw [hfs]
      exact List.any_eq_true.mpr ⟨u, hu, hinc⟩
  refine ⟨?_, hiff, fun hmem => filmPage_contains_card hmem⟩
  rintro ⟨urls, hfs, u, hu, hseg⟩
  refine hiff.mpr ⟨urls, hfs, u, hu, ?_⟩
  exact (jsIncludes_iff u film.id).mpr (substrP_of_getIdFromUrl hseg)

/-- C3 witness: the amended theorem applied at a dataset whose person has a
reference with trailing segment exactly `f1`. -/
theorem claim_C3_witness :
    demoFilm ∈ demoData.films ∧ demoPerson ∈ demoData.people ∧
    (((∃ urls, demoPerson.films = some urls ∧
        ∃ u ∈ urls, getIdFromUrl u = some demoFilm.id) →
      demoPerson ∈ getPeopleForFilm demoFilm.id demoData.people) ∧
    (demoPerson ∈ getPeopleForFilm demoFilm.id demoData.people ↔
      (∃ urls, demoPerson.films = some urls ∧
        ∃ u ∈ urls, jsIncludes u demoFilm.id = true)) ∧
    (demoPerson ∈ getPeopleForFilm demoFilm.id demoData.people →
      SubstrP (filmCharacterCardHTML demoData demoPerson)
        (generateFilmPage demoFilm demoFilm.id demoData))) :=
  ⟨by decide, by decide, claim_C3_amended demoData demoFilm demoPerson (by decide) (by decide)⟩

/-! #### Degenerate-reference filtering (species pages) -/

theorem filter_unkept_erase {urls : List String} {url : String} (h : refKept url = false) :
    (urls.filter fun u => !(u == url)).filter refKept = urls.filter refKept := by
  rw [List.filter_filter]
  refine List.filter_congr fun u hu => ?_
  by_cases he : u = url
  · subst he
    simp [h]
  · have hne : (u == url) = false := beq_eq_false_iff_ne.mpr he
    simp [hne]

/-- C6: on a species page, a reference URL whose trailing (nonempty) segment
is one of the five collection-name literals is excluded from resolution: it
never survives the reference filter, and deleting all its occurrences from
the species' people or films list leaves the resolved people and films (and
hence the rendered cards and tags) unchanged. -/
theorem claim_C6 (data : GhibliData) (species : Species) (url seg : String)
    (hseg : ((jsSplit '/' url).filter fun part => part.length > 0).getLast? = some seg)
    (hname : seg = "people" ∨ seg = "locations" ∨ seg = "species" ∨
      seg = "vehicles" ∨ seg = "films") :
    refKept url = false ∧
    (∀ urls, species.people = some urls → url ∉ urls.filter refKept) ∧
    (∀ urls, species.films = some urls → url ∉ urls.filter refKept) ∧
    (∀ urls, species.people = some urls →
      speciesPeople { species with people := some (urls.filter fun u => !(u == url)) } data =
        speciesPeople species data) ∧
    (∀ urls, species.films = some urls →
      speciesFilms { species with films := some (urls.filter fun u => !(u == url)) } data =
        speciesFilms species data) := by
  have hk : refKept url = false := by
    simp only [refKept]
    rw [hseg]
    rcases hname with rfl | rfl | rfl | rfl | rfl <;> rfl
  refine ⟨hk, ?_, ?_, ?_, ?_⟩
  · intro urls _ hmem
    have := (List.mem_filter.mp hmem).2
    rw [hk] at this
    cases this
  · intro urls _ hmem
    have := (List.mem_filter.mp hmem).2
    rw [hk] at this
    cases this
  · intro urls hu
    simp only [speciesPeople, hu]
    rw [filter_unkept_erase hk]
  · intro urls hu
    simp only [speciesFilms, hu]
    rw [filter_unkept_erase hk]

def demoSpecies6 : Species :=
  ⟨"s6", "Spirit", some "spirit", none, none,
    some ["https://x/people/", "https://x/people/p1"], some ["https://x/films/"]⟩

/-- C6 witness: the theorem applied to a species holding a reference whose
trailing nonempty segment is the literal `people`. -/
theorem claim_C6_witness :
    ((jsSplit '/' "https://x/people/").filter fun part =>
      part.length > 0).getLast? = some "people" ∧
    refKept "https://x/people/" = false ∧
    "https://x/people/" ∉
      (["https://x/people/", "https://x/people/p1"].filter refKept) ∧
    speciesPeople
      { demoSpecies6 with people := some ((["https://x/people/",
          "https://x/people/p1"]).filter fun u => !(u == "https://x/people/")) }
      demoData =
      speciesPeople demoSpecies6 demoData := by
  have h := claim_C6 demoData demoSpecies6 "https://x/people/" "people" (by decide)
    (Or.inl rfl)
  exact ⟨by decide, h.1, h.2.1 _ rfl, h.2.2.2.1 _ rfl⟩

/-! #### JS-Set deduplication lemmas (film-page species section) -/

theorem mem_dedupFirstAux {x : String} :
    ∀ (seen l : List String), x ∈ dedupFirstAux seen l ↔ (x ∈ l ∧ x ∉ seen) := by
  intro seen l
  induction l generalizing seen with
  | nil => simp [dedupFirstAux]
  | cons a as ih =>
    simp only [dedupFirstAux]
    by_cases hc : seen.contains a
    · rw [if_pos hc]
      have ha : a ∈ seen := List.elem_iff.mp hc
      rw [ih seen]
      constructor
      · rintro ⟨hx, hns⟩
        exact ⟨List.mem_cons_of_mem a hx, hns⟩
      · rintro ⟨hx, hns⟩
        rcases List.mem_cons.mp hx with rfl | hx
        · exact absurd ha hns
        · exact ⟨hx, hns⟩
    · rw [if_neg hc]
      have ha : a ∉ seen := fun hm => hc (List.elem_iff.mpr hm)
      constructor
      · intro hx
        rcases List.mem_cons.mp hx with rfl | hx
        · exact ⟨List.mem_cons_self _ _, ha⟩
        · obtain ⟨h1, h2⟩ := (ih (a :: seen)).mp hx
          exact ⟨List.mem_cons_of_mem a h1,
            fun hs => h2 (List.mem_cons_of_mem a hs)⟩
      · rintro ⟨hx, hns⟩
        rcases List.mem_cons.mp hx with rfl | hx
        · exact List.mem_cons_self _ _
        · by_cases hxa : x = a
          · subst hxa
            exact List.mem_cons_self _ _
          · refine List.mem_cons_of_mem _ ((ih (a :: seen)).mpr ⟨hx, ?_⟩)
            intro hs
            rcases List.mem_cons.mp hs with h' | h'
            · exact hxa h'
            · exact hns h'

theorem nodup_dedupFirstAux : ∀ (seen l : List String), (dedupFirstAux seen l).Nodup := by
  intro seen l
  induction l generalizing seen with
  | nil => simp [dedupFirstAux]
  | cons a as ih =>
    simp only [dedupFirstAux]
    by_cases hc : seen.contains a
    · rw [if_pos hc]
      exact ih seen
    · rw [if_neg hc]
      refine List.Nodup.cons ?_ (ih (a :: seen))
      intro hmem
      exact ((mem_dedupFirstAux (a :: seen) as).mp hmem).2 (List.mem_cons_self a seen)

theorem mem_dedupFirst {x : String} {l : List String} : x ∈ dedupFirst l ↔ x ∈ l := by
  rw [dedupFirst, mem_dedupFirstAux]
  simp

theorem nodup_dedupFirst (l : List String) : (dedupFirst l).Nodup :=
  nodup_dedupFirstAux [] l

/-- A tag produced for a resolvable species reference is a nonempty string. -/
theorem append_left_data_ne_nil {s : String} (t : String) (h : s.data ≠ []) :
    (s ++ t).data ≠ [] := by
  rw [String.data_append]
  exact fun hn => h (List.append_eq_nil.mp hn).1

theorem speciesTagHTML_ne_empty {u : String} {data : GhibliData}
    (h : (getSpeciesById u data.species).isSome) : speciesTagHTML u data ≠ "" := by
  unfold speciesTagHTML
  cases hs : getSpeciesById u data.species with
  | none => rw [hs] at h; cases h
  | some sp =>
    exact append_ne_empty_left _ _
      (append_left_data_ne_nil _ (append_left_data_ne_nil _
        (append_left_data_ne_nil _ (by decide))))

/-- C10: the film-page `Species (N)` heading count `N` is the number of
distinct raw species reference strings among the film's associated people,
while the tag list renders one tag per *resolvable* distinct reference
(unresolvable ones silently dropped), so the rendered tag count never
exceeds `N`; when `N > 0` but nothing resolves the list is the empty string
rather than the `None` tag, and the `None` tag appears exactly when `N = 0`. -/
theorem claim_C10 (data : GhibliData) (filmId : String) :
    (uniqueSpecies filmId data).Nodup ∧
    (∀ s, s ∈ uniqueSpecies filmId data ↔
      (∃ p ∈ getPeopleForFilm filmId data.people, p.species = some s ∧ s ≠ "")) ∧
    ((uniqueSpecies filmId data).length > 0 →
      speciesHTML filmId data =
        jsJoin (((uniqueSpecies filmId data).filter fun u =>
          (getSpeciesById u data.species).isSome).map fun u => speciesTagHTML u data)) ∧
    (((uniqueSpecies filmId data).filter fun u =>
        (getSpeciesById u data.species).isSome).length ≤
      (uniqueSpecies filmId data).length) ∧
    ((uniqueSpecies filmId data).length > 0 →
      (∀ u ∈ uniqueSpecies filmId data, getSpeciesById u data.species = none) →
      speciesHTML filmId data = "") ∧
    ((uniqueSpecies filmId data).length = 0 →
      speciesHTML filmId data = "<div class=\"info-tag\">None</div>") := by
  have hmem : ∀ s, s ∈ uniqueSpecies filmId data ↔
      (∃ p ∈ getPeopleForFilm filmId data.people, p.species = some s ∧ s ≠ "") := by
    intro s
    rw [uniqueSpecies, mem_dedupFirst, List.mem_filterMap]
    constructor
    · rintro ⟨p, hp, hps⟩
      cases hsp : p.species with
      | none =>
        simp only [hsp] at hps
        cases hps
      | some v =>
        simp only [hsp] at hps
        by_cases hv : v = ""
        · rw [if_pos hv] at hps; cases hps
        · rw [if_neg hv] at hps
          cases hps
          exact ⟨p, hp, hsp, hv⟩
    · rintro ⟨p, hp, hsp, hne⟩
      refine ⟨p, hp, ?_⟩
      simp only [hsp, if_neg hne]
  have htags : ((uniqueSpecies filmId data).map fun u => speciesTagHTML u data).filter
      (fun html => html ≠ "") =
      ((uniqueSpecies filmId data).filter fun u =>
        (getSpeciesById u data.species).isSome).map fun u => speciesTagHTML u data := by
    rw [List.filter_map]
    congr 1
    refine List.filter_congr fun u hu => ?_
    simp only [Function.comp_apply]
    cases hs : getSpeciesById u data.species with
    | none =>
      have : speciesTagHTML u data = "" := by
        unfold speciesTagHTML
        rw [hs]
      simp [this]
    | some sp =>
      have hne : speciesTagHTML u data ≠ "" :=
        speciesTagHTML_ne_empty (by rw [hs]; rfl)
      simp [hne]
  refine ⟨nodup_dedupFirst _, hmem, ?_, List.length_filter_le _ _, ?_, ?_⟩
  · intro hpos
    rw [speciesHTML]
    simp only [if_pos hpos]
    rw [htags]
  · intro hpos hnone
    rw [speciesHTML]
    simp only [if_pos hpos]
    rw [htags]
    have : ((uniqueSpecies filmId data).filter fun u =>
        (getSpeciesById u data.species).isSome) = [] := by
      rw [List.filter_eq_nil_iff]
      intro u hu
      rw [hnone u hu]
      simp
    rw [this]
    rfl
  · intro hzero
    rw [speciesHTML]
    simp only [hzero]
    rfl

def demoPerson10 : Person :=
  ⟨"p10", some "Ghost", some "female", none, none, none,
    some "https://x/species/ghost", some ["https://x/films/f1"]⟩

def demoData10 : GhibliData := ⟨[demoFilm], [], [], [demoPerson10], [demoSpecies]⟩

/-- C10 witness: a film with one distinct species reference that does not
resolve — the heading count is 1, no tag renders, and the list is the empty
string rather than the `None` tag. -/
theorem claim_C10_witness :
    (uniqueSpecies "f1" demoData10).length = 1 ∧
    ((uniqueSpecies "f1" demoData10).filter fun u =>
      (getSpeciesById u demoData10.species).isSome).length = 0 ∧
    ((uniqueSpecies "f1" demoData10).length > 0 →
      (∀ u ∈ uniqueSpecies "f1" demoData10,
        getSpeciesById u demoData10.species = none) →
      speciesHTML "f1" demoData10 = "") := by
  refine ⟨by decide, by decide, (claim_C10 demoData10 "f1").2.2.2.2.1⟩

/-! #### Stable-sort reasoning for the index page -/

/-- The parsed release year used by the index sort, defaulted for the
(hypothesis-excluded) `NaN` case. -/
def releaseKeyD (f : Film) : ℤ := (parseIntJS f.release_date).getD 0

theorem orderedInsert_congr {α : Type} (r s : α → α → Prop) [DecidableRel r] [DecidableRel s]
    (a : α) (l : List α)
    (h : ∀ x ∈ a :: l, ∀ y ∈ a :: l, (r x y ↔ s x y)) :
    l.orderedInsert r a = l.orderedInsert s a := by
  induction l with
  | nil => rfl
  | cons b bs ih =>
    simp only [List.orderedInsert]
    have hab : r a b ↔ s a b := h a (by simp) b (by simp)
    by_cases hr : r a b
    · rw [if_pos hr, if_pos (hab.mp hr)]
    · rw [if_neg hr, if_neg (fun hs => hr (hab.mpr hs))]
      have h' : ∀ x ∈ a :: bs, ∀ y ∈ a :: bs, (r x y ↔ s x y) := by
        intro x hx y hy
        rw [List.mem_cons] at hx hy
        refine h x ?_ y ?_
        · rcases hx with h1 | h1 <;> simp [h1]
        · rcases hy with h1 | h1 <;> simp [h1]
      rw [ih h']

theorem insertionSort_congr {α : Type} (r s : α → α → Prop) [DecidableRel r] [DecidableRel s]
    (l : List α) (h : ∀ x ∈ l, ∀ y ∈ l, (r x y ↔ s x y)) :
    l.insertionSort r = l.insertionSort s := by
  induction l with
  | nil => rfl
  | cons a as ih =>
    simp only [List.insertionSort]
    have h' : ∀ x ∈ as, ∀ y ∈ as, (r x y ↔ s x y) := fun x hx y hy =>
      h x (List.mem_cons_of_mem _ hx) y (List.mem_cons_of_mem _ hy)
    rw [ih h']
    apply orderedInsert_congr
    intro x hx y hy
    rw [List.mem_cons] at hx hy
    refine h x ?_ y ?_
    · rcases hx with h1 | h1
      · simp [h1]
      · exact List.mem_cons_of_mem _ ((List.mem_insertionSort s).mp h1)
    · rcases hy with h1 | h1
      · simp [h1]
      · exact List.mem_cons_of_mem _ ((List.mem_insertionSort s).mp h1)

theorem filmSortLeB_iff_key {x y : Film} (hx : (parseIntJS x.release_date).isSome)
    (hy : (parseIntJS y.release_date).isSome) :
    (filmSortLeB x y = true) ↔ (releaseKeyD x ≤ releaseKeyD y) := by
  obtain ⟨vx, hvx⟩ := Option.isSome_iff_exists.mp hx
  obtain ⟨vy, hvy⟩ := Option.isSome_iff_exists.mp hy
  simp [filmSortLeB, releaseKeyD, hvx, hvy]

theorem sortedFilms_eq_keySort {films : List Film}
    (hparse : ∀ f ∈ films, (parseIntJS f.release_date).isSome) :
    sortedFilms films =
      films.insertionSort fun a b => releaseKeyD a ≤ releaseKeyD b := by
  unfold sortedFilms
  exact insertionSort_congr _ _ films fun x hx y hy =>
    filmSortLeB_iff_key (hparse x hx) (hparse y hy)

theorem sortedFilms_sorted {films : List Film}
    (hparse : ∀ f ∈ films, (parseIntJS f.release_date).isSome) :
    (sortedFilms films).Pairwise fun a b => releaseKeyD a ≤ releaseKeyD b := by
  rw [sortedFilms_eq_keySort hparse]
  haveI : IsTotal Film fun a b => releaseKeyD a ≤ releaseKeyD b :=
    ⟨fun a b => le_total _ _⟩
  haveI : IsTrans Film fun a b => releaseKeyD a ≤ releaseKeyD b :=
    ⟨fun a b c h1 h2 => le_trans h1 h2⟩
  exact List.sorted_insertionSort _ films

theorem sortedFilms_filter_key (films : List Film) (k : ℤ) :
    (sortedFilms films).filter (fun f => releaseKeyD f == k) =
      films.filter fun f => releaseKeyD f == k := by
  have hκ : ∀ x ∈ films.filter (fun f => releaseKeyD f == k),
      ∀ y ∈ films.filter (fun f => releaseKeyD f == k), filmSortLeB x y = true := by
    intro x hx y hy
    have hxk : releaseKeyD x = k := by simpa using (List.mem_filter.mp hx).2
    have hyk : releaseKeyD y = k := by simpa using (List.mem_filter.mp hy).2
    simp only [filmSortLeB]
    cases hpx : parseIntJS x.release_date with
    | none => rfl
    | some vx =>
      cases hpy : parseIntJS y.release_date with
      | none => rfl
      | some vy =>
        have h1 : vx = k := by
          simp only [releaseKeyD, hpx, Option.getD_some] at hxk
          exact hxk
        have h2 : vy = k := by
          simp only [releaseKeyD, hpy, Option.getD_some] at hyk
          exact hyk
        simp [h1, h2]
  have hsub : List.Sublist (films.filter (fun f => releaseKeyD f == k)) (sortedFilms films) :=
    List.sublist_insertionSort (List.pairwise_of_forall_mem_list hκ)
      (List.filter_sublist films)
  have hperm : List.Perm ((sortedFilms films).filter (fun f => releaseKeyD f == k))
      (films.filter fun f => releaseKeyD f == k) :=
    (List.perm_insertionSort _ films).filter _
  have hBA : List.Sublist (films.filter (fun f => releaseKeyD f == k))
      ((sortedFilms films).filter fun f => releaseKeyD f == k) := by
    have h' := hsub.filter fun f => releaseKeyD f == k
    rwa [List.filter_eq_self.mpr fun a ha => (List.mem_filter.mp ha).2] at h'
  exact (hBA.eq_of_length hperm.length_eq.symm).symm

theorem indexPage_contains_card {films : List Film} {f : Film} (hf : f ∈ films) :
    SubstrP (indexFilmCardHTML f) (generateIndexPage films) := by
  have h1 : f ∈ sortedFilms films := (List.perm_insertionSort _ films).mem_iff.mpr hf
  have h2 : SubstrP (indexFilmCardHTML f) (indexFilmsHTML films) :=
    substrP_jsJoin (List.mem_map_of_mem _ h1)
  have h3 : SubstrP (indexFilmsHTML films) (indexHeaderHTML films) := by
    unfold indexHeaderHTML
    exact substrP_of_append _ _ _
  exact substrP_trans h2 (substrP_trans h3 (substrP_getIndexTemplate _ _))

/-- C4: for a non-empty films collection whose release dates all parse, the
index page renders exactly one card per film (the sorted list is a
permutation, so per-film multiplicities are preserved), the cards appear in
ascending order of the parsed release year, ties keep the original fetch
order (the sub-list of films at each parsed year is unchanged), each card
carries the `film_<id>.html` link of its film, and each film's card occurs
on the generated index page. -/
theorem claim_C4 (films : List Film) (hne : films ≠ [])
    (hparse : ∀ f ∈ films, (parseIntJS f.release_date).isSome) :
    (∀ f, (sortedFilms films).count f = films.count f) ∧
    ((sortedFilms films).Pairwise fun a b => releaseKeyD a ≤ releaseKeyD b) ∧
    (∀ k : ℤ, (sortedFilms films).filter (fun f => releaseKeyD f == k) =
      films.filter fun f => releaseKeyD f == k) ∧
    indexFilmsHTML films = jsJoin ((sortedFilms films).map indexFilmCardHTML) ∧
    (∀ f ∈ films, SubstrP ("film_" ++ f.id ++ ".html") (indexFilmCardHTML f)) ∧
    (∀ f ∈ films, SubstrP (indexFilmCardHTML f) (generateIndexPage films)) := by
  have _hne := hne
  refine ⟨fun f => (List.perm_insertionSort _ films).count_eq f,
    sortedFilms_sorted hparse, sortedFilms_filter_key films, rfl, ?_, ?_⟩
  · intro f _
    unfold indexFilmCardHTML
    exact substrP_of_append _ _ _
  · intro f hf
    exact indexPage_contains_card hf

def demoFilm3 : Film :=
  ⟨"f3", "Service", "Takkyubin", "Takkyu bin", "Miyazaki", "Hara", "1988",
    "103", "96", "A third film."⟩

/-- C4 witness: the theorem applied at three concrete films with a release
year tie (1988 twice) fetched out of order. -/
theorem claim_C4_witness :
    ([demoFilm, demoFilm2, demoFilm3] ≠ ([] : List Film)) ∧
    (∀ f ∈ [demoFilm, demoFilm2, demoFilm3], (parseIntJS f.release_date).isSome) ∧
    ((∀ f, (sortedFilms [demoFilm, demoFilm2, demoFilm3]).count f =
        [demoFilm, demoFilm2, demoFilm3].count f) ∧
    ((sortedFilms [demoFilm, demoFilm2, demoFilm3]).Pairwise fun a b =>
      releaseKeyD a ≤ releaseKeyD b) ∧
    (∀ k : ℤ, (sortedFilms [demoFilm, demoFilm2, demoFilm3]).filter
        (fun f => releaseKeyD f == k) =
      [demoFilm, demoFilm2, demoFilm3].filter fun f => releaseKeyD f == k) ∧
    indexFilmsHTML [demoFilm, demoFilm2, demoFilm3] =
      jsJoin ((sortedFilms [demoFilm, demoFilm2, demoFilm3]).map indexFilmCardHTML) ∧
    (∀ f ∈ [demoFilm, demoFilm2, demoFilm3],
      SubstrP ("film_" ++ f.id ++ ".html") (indexFilmCardHTML f)) ∧
    (∀ f ∈ [demoFilm, demoFilm2, demoFilm3],
      SubstrP (indexFilmCardHTML f)
        (generateIndexPage [demoFilm, demoFilm2, demoFilm3]))) ∧
    sortedFilms [demoFilm, demoFilm2, demoFilm3] = [demoFilm2, demoFilm, demoFilm3] :=
  ⟨by decide, by decide,
   claim_C4 [demoFilm, demoFilm2, demoFilm3] (by decide) (by decide),
   by decide⟩

/-! #### Link-target resolution lemmas -/

/-- A successful `getSpeciesById` lookup returns a species from the
collection whose id is exactly the trailing-segment extraction of the
(truthy) reference URL. -/
theorem getSpeciesById_spec {u : String} {arr : List Species} {sp : Species}
    (hu : u ≠ "") (h : getSpeciesById u arr = some sp) :
    sp ∈ arr ∧ getIdFromUrl u = some sp.id := by
  simp only [getSpeciesById] at h
  refine ⟨List.mem_of_find?_eq_some h, ?_⟩
  have hid := List.find?_some h
  rw [beq_iff_eq] at hid
  unfold getIdFromUrl
  rw [if_neg hu]
  by_cases hsl : jsIncludes u "/" = true
  · rw [if_pos hsl] at hid
    rw [hid]
  · rw [if_neg hsl] at hid
    have hfalse : hasSubL ['/'] u.data = false := by
      cases hj : jsIncludes u "/" with
      | false => exact hj
      | true => exact absurd hj hsl
    rw [splitChars_of_not_contains '/' u.data hfalse]
    rw [hid]
    rfl

/-- C5: every `film_<id>.html` / `species_<id>.html` link target emitted on
any generated page (index film cards, film-page species tags and
character-card species links, species-page film tags) names an entity of the
fetched films or species collection, hence exactly a file the writer creates
in the same run. -/
theorem claim_C5 (data : GhibliData) (target : String)
    (h : target ∈ allEmittedLinkTargets data) :
    target ∈ writtenFileNames data := by
  unfold allEmittedLinkTargets at h
  unfold writtenFileNames
  rcases List.mem_append.mp h with h12 | h3
  · rcases List.mem_append.mp h12 with h1 | h2
    · obtain ⟨f, hf, rfl⟩ := List.mem_map.mp h1
      exact List.mem_cons_of_mem _ (List.mem_append_left _ (List.mem_map_of_mem _ hf))
    · obtain ⟨film, _, ht⟩ := List.mem_flatMap.mp h2
      rcases List.mem_append.mp ht with hta | htb
      · obtain ⟨p, _, hp⟩ := List.mem_filterMap.mp hta
        simp only [filmCardSpeciesLinkTarget] at hp
        by_cases hcond : (decide (filmCardSpeciesName p data ≠ "") &&
            decide (filmCardSpeciesName p data ≠ "Unknown")) = true
        · rw [if_pos hcond] at hp
          cases hurl : filmCardSpeciesUrl p with
          | none => simp only [hurl] at hp; cases hp
          | some u =>
            simp only [hurl] at hp
            cases hp
            have hu : p.species = some u ∧ u ≠ "" := by
              unfold filmCardSpeciesUrl at hurl
              cases hps : p.species with
              | none => simp only [hps] at hurl; cases hurl
              | some v =>
                simp only [hps] at hurl
                by_cases hv : v = ""
                · rw [if_pos hv] at hurl; cases hurl
                · rw [if_neg hv] at hurl
                  cases hurl
                  exact ⟨rfl, hv⟩
            obtain ⟨sd, hsd⟩ : ∃ sd, getSpeciesById u data.species = some sd := by
              have hne : filmCardSpeciesName p data ≠ "Unknown" := by
                rw [Bool.and_eq_true] at hcond
                exact of_decide_eq_true hcond.2
              unfold filmCardSpeciesName at hne
              simp only [hu.1] at hne
              rw [if_neg hu.2] at hne
              cases hg : getSpeciesById u data.species with
              | none =>
                simp only [hg] at hne
                exact absurd rfl hne
              | some sd => exact ⟨sd, rfl⟩
            have hspec := getSpeciesById_spec hu.2 hsd
            rw [hspec.2]
            exact List.mem_cons_of_mem _ (List.mem_append_right _
              (List.mem_map_of_mem (fun s => "species_" ++ s.id ++ ".html") hspec.1))
        · rw [if_neg hcond] at hp
          cases hp
      · obtain ⟨u, _, hmap⟩ := List.mem_filterMap.mp htb
        cases hg : getSpeciesById u data.species with
        | none => simp only [hg] at hmap; cases hmap
        | some sp =>
          simp only [hg] at hmap
          cases hmap
          have hsp : sp ∈ data.species := by
            simp only [getSpeciesById] at hg
            exact List.mem_of_find?_eq_some hg
          exact List.mem_cons_of_mem _ (List.mem_append_right _
            (List.mem_map_of_mem (fun s => "species_" ++ s.id ++ ".html") hsp))
  · obtain ⟨sp, _, ht⟩ := List.mem_flatMap.mp h3
    obtain ⟨film, hfmem, rfl⟩ := List.mem_map.mp ht
    have hf : film ∈ data.films := by
      unfold speciesFilms at hfmem
      cases hsf : sp.films with
      | none => simp only [hsf] at hfmem; cases hfmem
      | some urls =>
        simp only [hsf] at hfmem
        obtain ⟨url, _, hres⟩ := List.mem_filterMap.mp hfmem
        cases hg : getIdFromUrl url with
        | none => simp only [hg] at hres; cases hres
        | some fid =>
          simp only [hg] at hres
          exact List.mem_of_find?_eq_some hres
    have hf' : film ∈ sortedFilms data.films :=
      (List.perm_insertionSort _ _).mem_iff.mpr hf
    exact List.mem_cons_of_mem _ (List.mem_append_left _
      (List.mem_map_of_mem (fun f => "film_" ++ f.id ++ ".html") hf'))

/-- C5 witness: a concrete emitted link target of the demo dataset is among
the written file names. -/
theorem claim_C5_witness :
    ("film_f1.html" ∈ allEmittedLinkTargets demoData) ∧
    "film_f1.html" ∈ writtenFileNames demoData :=
  ⟨by decide, claim_C5 demoData "film_f1.html" (by decide)⟩
